import Mathlib

/-!
Shallow embedding of the authentication/authorization core of the
user-management backend (account service, authorize middleware, Prisma
schema).  Timestamps are `Nat` milliseconds, bcrypt is abstracted as an
environment-supplied hash/compare pair, and the database is an explicit
record of account and refresh-token rows.
-/

set_option maxHeartbeats 1000000

namespace UserMgmt

/-- Role enum from `_helpers/role` (stored as a string in the schema). -/
inductive Role where
  | Admin
  | User
deriving DecidableEq, Repr

/-- An email dispatched through `sendEmail` (recipient `sendTo` mirrors the `to` field, plus `subject`; body text is
not inspected by any property). -/
structure Email where
  sendTo : String
  subject : String
deriving DecidableEq, Repr

/-- `model Account` of the Prisma schema. -/
structure Account where
  id : Nat
  email : String
  passwordHash : String
  title : String
  firstName : String
  lastName : String
  acceptTerms : Bool
  role : Role
  verificationToken : Option String
  verified : Option Nat
  resetToken : Option String
  resetTokenExpires : Option Nat
  passwordReset : Option Nat
  created : Nat
  updated : Nat
  isVerified : Bool
  isActive : Bool
deriving DecidableEq, Repr

/-- `model RefreshToken` of the Prisma schema (nullable columns are
`Option`). -/
structure RefreshToken where
  id : Nat
  token : Option String
  expires : Option Nat
  created : Nat
  createdByIp : Option String
  revoked : Option Nat
  revokedByIp : Option String
  replacedByToken : Option String
  isExpired : Option Bool
  isActive : Option Bool
  accountId : Nat
deriving DecidableEq, Repr

/-- The persistent store: the `account` and `refreshToken` tables, plus the
auto-increment counters Prisma maintains for their `id` columns. -/
structure Db where
  accounts : List Account
  refreshTokens : List RefreshToken
  nextAccountId : Nat
  nextRefreshTokenId : Nat
deriving DecidableEq, Repr

/-- The ambient environment of one service call: the wall clock
(`Date.now()`), the next `crypto.randomBytes(40).toString("hex")` results
(a supply of fresh opaque tokens), and bcrypt as an abstract hash/compare
pair. -/
structure Env where
  now : Nat
  freshTokens : List String
  bcryptHash : String → String
  bcryptCompare : String → String → Bool

/-- First element of the fresh-token supply (the value of the next
`randomTokenString()` call). -/
def Env.freshToken (env : Env) : String :=
  env.freshTokens.headD "tok"

/-- Second element of the fresh-token supply. -/
def Env.freshToken2 (env : Env) : String :=
  (env.freshTokens.drop 1).headD "tok2"

/-- JSON-ish values appearing in response payloads. -/
inductive JsonVal where
  | num : Nat → JsonVal
  | str : String → JsonVal
  | bool : Bool → JsonVal
deriving DecidableEq, Repr

/-- A JSON object payload as an association list, mirroring the object
literals the service returns. -/
abbrev Payload := List (String × JsonVal)

/-- The keys of a payload object. -/
def Payload.keys (p : Payload) : List String :=
  p.map Prod.fst

/-- Result of one service call: the outcome (a thrown string message or a
value), the database afterwards, and the emails sent. -/
structure OpResult (α : Type) where
  result : Except String α
  db : Db
  emails : List Email

/-- JS truthiness of a nullable boolean column (`null` is falsy). -/
def optTruthy : Option Bool → Bool
  | some true => true
  | _ => false

/-- `prisma.account.update({ where: { id } , data })`: rewrite the matching
row in place. -/
def updateAccountById (db : Db) (id : Nat) (f : Account → Account) : Db :=
  { db with accounts := db.accounts.map (fun a => if a.id = id then f a else a) }

/-- `prisma.refreshToken.update({ where: { id }, data })`. -/
def updateRefreshTokenById (db : Db) (id : Nat) (f : RefreshToken → RefreshToken) : Db :=
  { db with refreshTokens := db.refreshTokens.map (fun rt => if rt.id = id then f rt else rt) }

/-- `Role` as the string stored in the `role` column. -/
def Role.toStr : Role → String
  | .Admin => "Admin"
  | .User => "User"

/-- `basicDetails(account)` of the account service: the only projection of an
account ever put in a response payload. -/
def basicDetails (a : Account) : Payload :=
  [ ("id", .num a.id)
  , ("title", .str a.title)
  , ("firstName", .str a.firstName)
  , ("lastName", .str a.lastName)
  , ("email", .str a.email)
  , ("role", .str a.role.toStr)
  , ("dateCreated", .str (toString a.created))
  , ("isVerified", .bool a.isVerified)
  , ("isActive", .bool a.isActive) ]

/-- `generateJwtToken(account)`: a signed access token encoding id and role;
the signature itself is opaque to every property, so it is modelled as an
injective string encoding. -/
def generateJwtToken (a : Account) : String :=
  "jwt." ++ toString a.id ++ "." ++ a.role.toStr

/-- `generateRefreshToken(account, ipAddress)`: the row
`prisma.refreshToken.create` inserts (expires = now + 7 days, active, not
expired). -/
def generateRefreshTokenRow (env : Env) (tok : String) (rtId : Nat)
    (accountId : Nat) (ipAddress : String) : RefreshToken :=
  { id := rtId
  , token := some tok
  , expires := some (env.now + 7 * 24 * 60 * 60 * 1000)
  , created := env.now
  , createdByIp := some ipAddress
  , revoked := none
  , revokedByIp := none
  , replacedByToken := none
  , isExpired := some false
  , isActive := some true
  , accountId := accountId }

/-- The verification email `sendVerificationEmail` dispatches. -/
def verificationEmail (a : Account) : Email :=
  { sendTo := a.email, subject := "Verification Email" }

/-- The email `sendAlreadyRegisteredEmail` dispatches. -/
def alreadyRegisteredEmail (email : String) : Email :=
  { sendTo := email, subject := "Email Already Registered" }

/-- The email sent to the first registered user. -/
def firstUserEmail (a : Account) : Email :=
  { sendTo := a.email, subject := "First User Login" }

/-- The email `sendPasswordResetEmail` dispatches. -/
def passwordResetEmail (a : Account) : Email :=
  { sendTo := a.email, subject := "Reset Password Email" }

/-- `authenticate({ email, password, ipAddress })` of the account service:
lookup by email, then the ordered precondition checks (absent, inactive,
unverified with a re-sent verification email, wrong password), then token
issuance. -/
def authenticate (db : Db) (env : Env) (email password ipAddress : String) :
    OpResult Payload :=
  match db.accounts.find? (fun a => a.email = email) with
  | none => { result := .error "Email doesn't exist", db := db, emails := [] }
  | some account =>
    if !account.isActive then
      { result := .error "Account is inActive. Please contact system Administrator!"
      , db := db, emails := [] }
    else if !account.isVerified then
      { result := .error "Email is not verified"
      , db := db, emails := [verificationEmail account] }
    else if !(env.bcryptCompare password account.passwordHash) then
      { result := .error "Password is incorrect", db := db, emails := [] }
    else
      let jwtToken := generateJwtToken account
      let rt := generateRefreshTokenRow env env.freshToken db.nextRefreshTokenId
          account.id ipAddress
      let newDb : Db :=
        { db with refreshTokens := db.refreshTokens ++ [rt],
                  nextRefreshTokenId := db.nextRefreshTokenId + 1 }
      { result := .ok (basicDetails account ++
          [ ("jwtToken", .str jwtToken)
          , ("refreshToken", .str env.freshToken) ])
      , db := newDb
      , emails := [] }

/-- Parameters of `register` / `create` (profile fields; `confirmPassword` is
checked at the validation layer and not stored). -/
structure RegisterParams where
  title : String
  firstName : String
  lastName : String
  email : String
  password : String
  acceptTerms : Option Bool
deriving Repr

/-- The account row `prisma.account.create` inserts during `register`
(`isFirstAccount` decides Admin-vs-User and auto-verification). -/
def registerRow (env : Env) (params : RegisterParams)
    (isFirstAccount : Bool) (id : Nat) : Account :=
  { id := id
  , email := params.email
  , passwordHash := env.bcryptHash params.password
  , title := params.title
  , firstName := params.firstName
  , lastName := params.lastName
  , acceptTerms := params.acceptTerms.getD false
  , role := if isFirstAccount then Role.Admin else Role.User
  , verificationToken := some env.freshToken
  , verified := none
  , resetToken := none
  , resetTokenExpires := none
  , passwordReset := none
  , created := env.now
  , updated := env.now
  , isVerified := isFirstAccount
  , isActive := true }

/-- `register(params, origin)`: silent return (plus notification email) when
the email is taken; otherwise the first-ever account becomes an auto-verified
Admin, every later account a User with a pending verification token. -/
def register (db : Db) (env : Env) (params : RegisterParams) :
    OpResult (Option String) :=
  match db.accounts.find? (fun a => a.email = params.email) with
  | some _ =>
    { result := .ok none, db := db, emails := [alreadyRegisteredEmail params.email] }
  | none =>
    let isFirstAccount := db.accounts.length = 0
    let account : Account :=
      registerRow env params (decide isFirstAccount) db.nextAccountId
    let newDb : Db :=
      { db with accounts := db.accounts ++ [account],
                nextAccountId := db.nextAccountId + 1 }
    { result := .ok (some env.freshToken)
    , db := newDb
    , emails := if isFirstAccount then [firstUserEmail account]
                else [verificationEmail account] }

/-- The row update `verifyEmail` performs on the matched account. -/
def verifyApply (env : Env) (a : Account) : Account :=
  { a with isVerified := true
         , verificationToken := none
         , verified := some env.now
         , updated := env.now }

/-- `verifyEmail(token)`: find the account by verification token, fail
`Verification failed` if none, else mark verified and clear the token. -/
def verifyEmail (db : Db) (env : Env) (token : String) : OpResult Unit :=
  match db.accounts.find? (fun a => a.verificationToken = some token) with
  | none => { result := .error "Verification failed", db := db, emails := [] }
  | some account =>
    { result := .ok ()
    , db := updateAccountById db account.id (verifyApply env)
    , emails := [] }

/-- `forgotPassword(email, origin)`: silent return when the email is unknown;
otherwise stamp a fresh reset token valid for 24 hours and send the reset
email.  `forgotApply` is the row update it persists. -/
def forgotApply (env : Env) (a : Account) : Account :=
  { a with resetToken := some env.freshToken
         , resetTokenExpires := some (env.now + 24 * 60 * 60 * 1000)
         , updated := env.now }

/-- `forgotPassword(email, origin)`: silent return when the email is unknown;
otherwise stamp a fresh reset token valid for 24 hours and send the reset
email. -/
def forgotPassword (db : Db) (env : Env) (email : String) : OpResult Unit :=
  match db.accounts.find? (fun a => a.email = email) with
  | none => { result := .ok (), db := db, emails := [] }
  | some account =>
    { result := .ok ()
    , db := updateAccountById db account.id (forgotApply env)
    , emails := [passwordResetEmail account] }

/-- The HTTP response body of the `forgot-password` controller action: the
empty JSON object on every non-thrown path. -/
def forgotPasswordResponse (db : Db) (env : Env) (email : String) : Payload :=
  match (forgotPassword db env email).result with
  | .ok _ => []
  | .error _ => []

/-- The Prisma `where` clause shared by `validateResetToken` and
`resetPassword`: `resetToken` equals the supplied token and
`resetTokenExpires` is strictly in the future (a null expiry never matches
`gt`). -/
def resetMatch (env : Env) (token : String) (a : Account) : Bool :=
  a.resetToken = some token &&
    (match a.resetTokenExpires with
     | some e => decide (env.now < e)
     | none => false)

/-- `validateResetToken(token)`: succeeds iff a non-expired match exists;
performs no write. -/
def validateResetToken (db : Db) (env : Env) (token : String) : OpResult Unit :=
  match db.accounts.find? (resetMatch env token) with
  | none => { result := .error "Invalid token", db := db, emails := [] }
  | some _ => { result := .ok (), db := db, emails := [] }

/-- The row update `resetPassword` performs on the matched account. -/
def resetApply (env : Env) (password : String) (a : Account) : Account :=
  { a with passwordHash := env.bcryptHash password
         , resetToken := none
         , resetTokenExpires := none
         , isVerified := true
         , passwordReset := some env.now
         , updated := env.now }

/-- `resetPassword(token, password)`: re-validate the token, then rewrite the
matched account through `resetApply`. -/
def resetPassword (db : Db) (env : Env) (token password : String) :
    OpResult Unit :=
  match db.accounts.find? (resetMatch env token) with
  | none => { result := .error "Invalid token", db := db, emails := [] }
  | some account =>
    { result := .ok ()
    , db := updateAccountById db account.id (resetApply env password)
    , emails := [] }

/-- The refresh-token row predicate of
`prisma.refreshToken.findFirst({ where: { token, isActive: true, isExpired: false } })`:
only the stored flags are consulted. -/
def usableForRefresh (token : String) (rt : RefreshToken) : Bool :=
  rt.token = some token && rt.isActive = some true && rt.isExpired = some false

/-- The `findFirst` of `refreshToken(...)` in the account service. -/
def refreshFind (db : Db) (token : String) : Option RefreshToken :=
  db.refreshTokens.find? (usableForRefresh token)

/-- The revocation update applied to the superseded refresh-token row. -/
def revokeApply (env : Env) (ipAddress newToken : String) (rt : RefreshToken) :
    RefreshToken :=
  { rt with revoked := some env.now
          , revokedByIp := some ipAddress
          , replacedByToken := some newToken
          , isActive := some false }

/-- The write phase of `refreshToken(...)`: insert the successor row, then
revoke the old row in place (pointing it at the successor). -/
def refreshWrite (db : Db) (env : Env) (oldId : Nat) (accountId : Nat)
    (newToken ipAddress : String) : Db :=
  let newRow := generateRefreshTokenRow env newToken db.nextRefreshTokenId
      accountId ipAddress
  let db1 : Db :=
    { db with refreshTokens := db.refreshTokens ++ [newRow],
              nextRefreshTokenId := db.nextRefreshTokenId + 1 }
  updateRefreshTokenById db1 oldId (revokeApply env ipAddress newToken)

/-- `refreshToken({ token, ipAddress })` of the account service: look up an
active, flag-unexpired row (with its owning account), fail
`Invalid refresh token` if absent, else rotate: issue a successor row and
revoke the old one with `replacedByToken` pointing at the successor. -/
def refreshTokenOp (db : Db) (env : Env) (token ipAddress : String) :
    OpResult Payload :=
  match refreshFind db token with
  | none => { result := .error "Invalid refresh token", db := db, emails := [] }
  | some rt =>
    match db.accounts.find? (fun a => a.id = rt.accountId) with
    | none => { result := .error "Invalid refresh token", db := db, emails := [] }
    | some account =>
      let newToken := env.freshToken
      { result := .ok (basicDetails account ++
          [ ("jwtToken", .str (generateJwtToken account))
          , ("refreshToken", .str newToken) ])
      , db := refreshWrite db env rt.id account.id newToken ipAddress
      , emails := [] }

/-- `revokeToken({ token, ipAddress })`: find an active row by token value,
fail `Token not found` if absent, else mark it revoked and inactive (no
successor). -/
def revokeToken (db : Db) (env : Env) (token ipAddress : String) :
    OpResult Unit :=
  match db.refreshTokens.find? (fun rt =>
      rt.token = some token && rt.isActive = some true) with
  | none => { result := .error "Token not found", db := db, emails := [] }
  | some rt =>
    { result := .ok ()
    , db := updateRefreshTokenById db rt.id (fun old =>
        { old with revoked := some env.now
                 , revokedByIp := some ipAddress
                 , isActive := some false })
    , emails := [] }

/-- The `ownsToken` capability closure the Access Guard attaches to the
request principal: membership of the token among the account's rows with the
`isExpired` flag falsy and the `isActive` flag truthy. -/
def ownsToken (db : Db) (accountId : Nat) (token : String) : Bool :=
  (((db.refreshTokens.filter (fun rt => rt.accountId = accountId)).find?
      (fun rt => rt.token = some token &&
        !(optTruthy rt.isExpired) && optTruthy rt.isActive))).isSome

/-- Outcome of the `authorize(roles)` middleware chain for a request whose
JWT layer produced `authId` (`none` models a missing/invalid token, and the
decoded numeric id is falsy when `0`). -/
inductive AuthorizeResult where
  | unauthorized (message : String)
  | forbidden (message : String)
  | proceed (id : Nat) (role : Role)
deriving DecidableEq, Repr

/-- The role-check middleware of `authorize(roles)`: 401 when the decoded id
is falsy or the account no longer exists, 403 when a required-role list is
declared and the re-fetched role is not in it, else hand the principal to the
route handler. -/
def authorize (roles : List Role) (authId : Option Nat) (db : Db) :
    AuthorizeResult :=
  match authId with
  | none => .unauthorized "Unauthorized - Invalid token"
  | some id =>
    if id = 0 then .unauthorized "Unauthorized - Invalid token"
    else
      match db.accounts.find? (fun a => a.id = id) with
      | none => .unauthorized "Unauthorized - Account not found"
      | some account =>
        if roles.length ≠ 0 && !(roles.contains account.role) then
          .forbidden "Forbidden - Insufficient permissions"
        else
          .proceed account.id account.role

/-- `getAll()`: every account, projected through `basicDetails`. -/
def getAll (db : Db) : List Payload :=
  db.accounts.map basicDetails

/-- `getById(id)`. -/
def getById (db : Db) (id : Nat) : Except String Payload :=
  match db.accounts.find? (fun a => a.id = id) with
  | none => .error "Account not found"
  | some account => .ok (basicDetails account)

/-- `create(params)`: admin-created accounts are born verified and active. -/
def create (db : Db) (env : Env) (params : RegisterParams) :
    OpResult Payload :=
  match db.accounts.find? (fun a => a.email = params.email) with
  | some _ =>
    { result := .error ("Email " ++ params.email ++ " is already registered")
    , db := db, emails := [] }
  | none =>
    let account : Account :=
      { id := db.nextAccountId
      , email := params.email
      , passwordHash := env.bcryptHash params.password
      , title := params.title
      , firstName := params.firstName
      , lastName := params.lastName
      , acceptTerms := params.acceptTerms.getD false
      , role := Role.User
      , verificationToken := none
      , verified := none
      , resetToken := none
      , resetTokenExpires := none
      , passwordReset := none
      , created := env.now
      , updated := env.now
      , isVerified := true
      , isActive := true }
    let newDb : Db :=
      { db with accounts := db.accounts ++ [account],
                nextAccountId := db.nextAccountId + 1 }
    { result := .ok (basicDetails account), db := newDb, emails := [] }

/-- Optional fields of `update(id, params)`. -/
structure UpdateParams where
  title : Option String
  firstName : Option String
  lastName : Option String
  email : Option String
  password : Option String
  role : Option Role
  isActive : Option Bool
deriving Repr

/-- The row rewrite `update` performs (undefined fields leave the column
untouched; a supplied password arrives as a fresh hash). -/
def updateApply (env : Env) (params : UpdateParams) (a : Account) : Account :=
  { a with title := params.title.getD a.title
         , firstName := params.firstName.getD a.firstName
         , lastName := params.lastName.getD a.lastName
         , email := params.email.getD a.email
         , role := params.role.getD a.role
         , isActive := params.isActive.getD a.isActive
         , passwordHash := match params.password with
             | some p => env.bcryptHash p
             | none => a.passwordHash
         , updated := env.now }

/-- `update(id, params)`: existence check, email-uniqueness check, then the
row rewrite, returning the `basicDetails` projection of the updated row. -/
def update (db : Db) (env : Env) (id : Nat) (params : UpdateParams) :
    OpResult Payload :=
  match db.accounts.find? (fun a => a.id = id) with
  | none => { result := .error "Account not found", db := db, emails := [] }
  | some account =>
    let emailConflict : Bool :=
      match params.email with
      | some e => e != account.email &&
          (db.accounts.find? (fun a => a.email = e)).isSome
      | none => false
    if emailConflict then
      { result := .error ("Email " ++ (params.email.getD "") ++
          " is already registered")
      , db := db, emails := [] }
    else
      { result := .ok (basicDetails (updateApply env params account))
      , db := updateAccountById db account.id (updateApply env params)
      , emails := [] }

/-- Progress of a single in-flight `refreshToken` call: before its
`findFirst` await, after it (holding the row it read), or finished with its
outcome (the successor token value on success).  The write phase bundles the
successor insert and the revoking update; the exhibited race only needs the
interleaving point at the first await. -/
inductive RefreshPhase where
  | start
  | readDone (found : Option (RefreshToken × Option Account))
  | finished (res : Except String String)
deriving Repr

/-- One scheduler step of an in-flight `refreshToken` call against the shared
store: the read phase performs the `findFirst` (with its account include),
the write phase performs the successor insert plus revoking update and
returns the successor token. -/
def refreshStep (env : Env) (token ipAddress : String) :
    RefreshPhase × Db → RefreshPhase × Db
  | (.start, db) =>
    match refreshFind db token with
    | none => (.readDone none, db)
    | some rt =>
      (.readDone (some (rt, db.accounts.find? (fun a => a.id = rt.accountId))), db)
  | (.readDone none, db) => (.finished (.error "Invalid refresh token"), db)
  | (.readDone (some (_, none)), db) =>
    (.finished (.error "Invalid refresh token"), db)
  | (.readDone (some (rt, some account)), db) =>
    (.finished (.ok env.freshToken),
      refreshWrite db env rt.id account.id env.freshToken ipAddress)
  | (.finished res, db) => (.finished res, db)

/-- Interleaved execution of two concurrent `refreshToken` calls A and B on
the same store: `sched` names which call takes its next step. -/
def refreshRace (envA envB : Env) (token ipA ipB : String)
    (sched : List Bool) (db : Db) : RefreshPhase × RefreshPhase × Db :=
  let step := fun (st : RefreshPhase × RefreshPhase × Db) (who : Bool) =>
    match st with
    | (pa, pb, d) =>
      if who then
        let (pa2, d2) := refreshStep envA token ipA (pa, d)
        (pa2, pb, d2)
      else
        let (pb2, d2) := refreshStep envB token ipB (pb, d)
        (pa, pb2, d2)
  sched.foldl step (.start, .start, db)

/-- `true` on a success outcome, `false` on a thrown one. -/
def isOkB {α : Type} : Except String α → Bool
  | .ok _ => true
  | .error _ => false

/-- The usability notion of spec section 3: active flag truthy, `expires`
strictly in the future at the time of the check, and `revoked` null. -/
def specUsable (now : Nat) (token : String) (rt : RefreshToken) : Bool :=
  rt.token = some token && optTruthy rt.isActive &&
    (match rt.expires with
     | some e => decide (now < e)
     | none => false) &&
    rt.revoked = none

/-! Sample data used by concrete witnesses. -/

/-- A sample environment: clock at 1000, a deterministic token supply, and an
injective toy hash with its matching comparator. -/
def envT : Env :=
  { now := 1000
  , freshTokens := ["ftokA", "ftokB"]
  , bcryptHash := fun p => p ++ "#h"
  , bcryptCompare := fun p h => h == p ++ "#h" }

/-- A verified, active sample account whose password is `"pw"` under
`envT`. -/
def acctVerified : Account :=
  { id := 1
  , email := "a@x.com"
  , passwordHash := "pw#h"
  , title := "Mr"
  , firstName := "Alex"
  , lastName := "Getz"
  , acceptTerms := true
  , role := .Admin
  , verificationToken := none
  , verified := some 5
  , resetToken := none
  , resetTokenExpires := none
  , passwordReset := none
  , created := 1
  , updated := 1
  , isVerified := true
  , isActive := true }

/-- A one-account store holding `acctVerified`. -/
def dbOne : Db :=
  { accounts := [acctVerified]
  , refreshTokens := []
  , nextAccountId := 2
  , nextRefreshTokenId := 1 }

/-- C1: for every authentication attempt, `authenticate` succeeds iff the
account with the given email exists, `isActive` is true, `isVerified` is
true, and the supplied password matches the stored hash; otherwise it fails
with the error of the first violated precondition in the fixed order
absent, inactive, unverified (re-sending a verification email as a side
effect), password mismatch. -/
theorem authenticate_ordered_preconditions (db : Db) (env : Env)
    (email password ipAddress : String) :
    (isOkB (authenticate db env email password ipAddress).result = true ↔
      ∃ a, db.accounts.find? (fun x => x.email = email) = some a ∧
        a.isActive = true ∧ a.isVerified = true ∧
        env.bcryptCompare password a.passwordHash = true) ∧
    (db.accounts.find? (fun x => x.email = email) = none →
      (authenticate db env email password ipAddress).result =
        .error "Email doesn't exist") ∧
    (∀ a, db.accounts.find? (fun x => x.email = email) = some a →
      a.isActive = false →
      (authenticate db env email password ipAddress).result =
        .error "Account is inActive. Please contact system Administrator!") ∧
    (∀ a, db.accounts.find? (fun x => x.email = email) = some a →
      a.isActive = true → a.isVerified = false →
      (authenticate db env email password ipAddress).result =
        .error "Email is not verified" ∧
      (authenticate db env email password ipAddress).emails =
        [verificationEmail a]) ∧
    (∀ a, db.accounts.find? (fun x => x.email = email) = some a →
      a.isActive = true → a.isVerified = true →
      env.bcryptCompare password a.passwordHash = false →
      (authenticate db env email password ipAddress).result =
        .error "Password is incorrect") := by
  cases h : db.accounts.find? (fun x => x.email = email) with
  | none => simp [authenticate, h, isOkB]
  | some a =>
    by_cases hact : a.isActive
    · by_cases hver : a.isVerified
      · by_cases hcmp : env.bcryptCompare password a.passwordHash
        · simp [authenticate, h, hact, hver, hcmp, isOkB]
        · simp [authenticate, h, hact, hver, hcmp, isOkB]
      · simp [authenticate, h, hact, hver, isOkB]
    · simp [authenticate, h, hact, isOkB]

/-- Concrete instantiation of C1: with the sample account the success case
and the unverified-failure case both evaluate as stated. -/
theorem authenticate_ordered_preconditions_witness :
    isOkB (authenticate dbOne envT "a@x.com" "pw" "ip1").result = true ∧
    (authenticate
        { dbOne with accounts := [{ acctVerified with isVerified := false }] }
        envT "a@x.com" "pw" "ip1").result = .error "Email is not verified" := by
  constructor
  · exact (authenticate_ordered_preconditions dbOne envT "a@x.com" "pw" "ip1").1.mpr
      ⟨acctVerified, by decide, by decide, by decide, by decide⟩
  · exact ((authenticate_ordered_preconditions
      { dbOne with accounts := [{ acctVerified with isVerified := false }] }
      envT "a@x.com" "pw" "ip1").2.2.2.1
      { acctVerified with isVerified := false } (by decide) (by decide) (by decide)).1

/-- C2: `refresh(token, clientIp)` fails `Invalid refresh token` with no
state change when no active, flag-unexpired row (with its owning account)
matches; on a match it issues a fresh access and refresh token for the
owning account and leaves the old row revoked at the current time, stamped
with the caller ip, inactive, and pointing at the successor through
`replacedByToken`. -/
theorem refreshToken_rotation (db : Db) (env : Env) (token ipAddress : String) :
    (refreshFind db token = none →
      (refreshTokenOp db env token ipAddress).result =
        .error "Invalid refresh token" ∧
      (refreshTokenOp db env token ipAddress).db = db ∧
      (refreshTokenOp db env token ipAddress).emails = []) ∧
    (∀ rt, refreshFind db token = some rt →
      db.accounts.find? (fun a => a.id = rt.accountId) = none →
      (refreshTokenOp db env token ipAddress).result =
        .error "Invalid refresh token" ∧
      (refreshTokenOp db env token ipAddress).db = db) ∧
    (∀ rt account, refreshFind db token = some rt →
      db.accounts.find? (fun a => a.id = rt.accountId) = some account →
      db.nextRefreshTokenId ≠ rt.id →
      (refreshTokenOp db env token ipAddress).result =
        .ok (basicDetails account ++
          [ ("jwtToken", .str (generateJwtToken account))
          , ("refreshToken", .str env.freshToken) ]) ∧
      generateRefreshTokenRow env env.freshToken db.nextRefreshTokenId
          account.id ipAddress ∈
        (refreshTokenOp db env token ipAddress).db.refreshTokens ∧
      revokeApply env ipAddress env.freshToken rt ∈
        (refreshTokenOp db env token ipAddress).db.refreshTokens ∧
      (revokeApply env ipAddress env.freshToken rt).revoked = some env.now ∧
      (revokeApply env ipAddress env.freshToken rt).revokedByIp =
        some ipAddress ∧
      (revokeApply env ipAddress env.freshToken rt).isActive = some false ∧
      (revokeApply env ipAddress env.freshToken rt).replacedByToken =
        some env.freshToken ∧
      (refreshTokenOp db env token ipAddress).emails = []) := by
  refine ⟨?_, ?_, ?_⟩
  · intro h
    refine ⟨?_, ?_, ?_⟩ <;> simp [refreshTokenOp, h]
  · intro rt hfind hacc
    refine ⟨?_, ?_⟩ <;> simp [refreshTokenOp, hfind, hacc]
  · intro rt account hfind hacc hne
    have hmem : rt ∈ db.refreshTokens := List.mem_of_find?_eq_some hfind
    have hdb : (refreshTokenOp db env token ipAddress).db.refreshTokens =
        (db.refreshTokens ++
          [generateRefreshTokenRow env env.freshToken db.nextRefreshTokenId
            account.id ipAddress]).map
          (fun old => if old.id = rt.id then
            revokeApply env ipAddress env.freshToken old else old) := by
      simp [refreshTokenOp, hfind, hacc, refreshWrite, updateRefreshTokenById]
    refine ⟨?_, ?_, ?_, rfl, rfl, rfl, rfl, ?_⟩
    · simp [refreshTokenOp, hfind, hacc]
    · rw [hdb]
      rw [List.mem_map]
      refine ⟨generateRefreshTokenRow env env.freshToken db.nextRefreshTokenId
        account.id ipAddress, by simp, ?_⟩
      simp [generateRefreshTokenRow]
      intro hcontra
      exact absurd hcontra hne
    · rw [hdb]
      rw [List.mem_map]
      exact ⟨rt, by simp [hmem], by simp⟩
    · simp [refreshTokenOp, hfind, hacc]

/-- Concrete instantiation of C2: a one-token store rotates as stated. -/
theorem refreshToken_rotation_witness :
    (refreshTokenOp
        { dbOne with refreshTokens :=
            [generateRefreshTokenRow envT "t0" 1 1 "ip0"], nextRefreshTokenId := 2 }
        envT "t0" "ip1").result =
      .ok (basicDetails acctVerified ++
        [ ("jwtToken", .str (generateJwtToken acctVerified))
        , ("refreshToken", .str envT.freshToken) ]) ∧
    revokeApply envT "ip1" envT.freshToken
        (generateRefreshTokenRow envT "t0" 1 1 "ip0") ∈
      (refreshTokenOp
        { dbOne with refreshTokens :=
            [generateRefreshTokenRow envT "t0" 1 1 "ip0"], nextRefreshTokenId := 2 }
        envT "t0" "ip1").db.refreshTokens := by
  have h := (refreshToken_rotation
      { dbOne with refreshTokens :=
          [generateRefreshTokenRow envT "t0" 1 1 "ip0"], nextRefreshTokenId := 2 }
      envT "t0" "ip1").2.2
      (generateRefreshTokenRow envT "t0" 1 1 "ip0") acctVerified
      (by decide) (by decide) (by decide)
  exact ⟨h.1, h.2.2.1⟩

/-- The initially-active refresh-token row presented by both racing calls. -/
def rtRace : RefreshToken := generateRefreshTokenRow envT "t0" 1 1 "ip0"

/-- Store for the rotation race: one account, one active token row. -/
def dbRace : Db :=
  { accounts := [acctVerified]
  , refreshTokens := [rtRace]
  , nextAccountId := 2
  , nextRefreshTokenId := 2 }

/-- C3 (failing run): the rotation is a plain read-then-write, so under the
schedule A reads, B reads, A writes, B writes — realizable because each
Prisma call is a separate await point — both concurrent `refreshToken`
calls presenting the same initially-active token succeed, and the store
ends with two active successor tokens instead of one. -/
theorem refresh_rotation_race_both_succeed :
    refreshRace { envT with freshTokens := ["ftokA"] }
        { envT with freshTokens := ["ftokB"] }
        "t0" "ipA" "ipB" [true, false, true, false] dbRace =
      (RefreshPhase.finished (.ok "ftokA"), RefreshPhase.finished (.ok "ftokB"),
        (refreshRace { envT with freshTokens := ["ftokA"] }
          { envT with freshTokens := ["ftokB"] }
          "t0" "ipA" "ipB" [true, false, true, false] dbRace).2.2) ∧
    ((refreshRace { envT with freshTokens := ["ftokA"] }
        { envT with freshTokens := ["ftokB"] }
        "t0" "ipA" "ipB" [true, false, true, false] dbRace).2.2.refreshTokens.filter
      (fun rt => rt.isActive = some true)).length = 2 := by
  constructor
  · rfl
  · rfl

/-- C4: `register` creates the first-ever account as an auto-verified Admin
for which `authenticate` succeeds with no email verification, while every
subsequent account is created as an unverified User carrying the fresh
random verification token, for which `authenticate` fails until
`verifyEmail` consumes that token and succeeds afterwards. -/
theorem register_first_admin_rest_user (db : Db) (env : Env)
    (params : RegisterParams) (ipAddress : String)
    (hcmp : env.bcryptCompare params.password
      (env.bcryptHash params.password) = true) :
    (db.accounts = [] →
      ∃ a, (register db env params).db.accounts = [a] ∧
        a.role = .Admin ∧ a.isVerified = true ∧ a.email = params.email ∧
        isOkB (authenticate (register db env params).db env
          params.email params.password ipAddress).result = true) ∧
    (db.accounts ≠ [] →
      db.accounts.find? (fun x => x.email = params.email) = none →
      ∃ a, (register db env params).db.accounts = db.accounts ++ [a] ∧
        a.role = .User ∧ a.isVerified = false ∧
        a.verificationToken = some env.freshToken ∧
        (authenticate (register db env params).db env
          params.email params.password ipAddress).result =
          .error "Email is not verified" ∧
        (db.accounts.find?
            (fun x => x.verificationToken = some env.freshToken) = none →
          isOkB (authenticate
            (verifyEmail (register db env params).db env env.freshToken).db
            env params.email params.password ipAddress).result = true)) := by
  obtain ⟨accs, rts, naid, nrid⟩ := db
  constructor
  · intro h0
    simp only at h0
    subst h0
    refine ⟨registerRow env params true naid, ?_, rfl, rfl, rfl, ?_⟩
    · simp [register, registerRow]
    · simp [register, authenticate, registerRow, isOkB, hcmp]
  · intro h1 hf
    simp only at h1 hf
    have hlen : ¬ (accs.length = 0) := by
      simpa [List.length_eq_zero] using h1
    have hdec : decide (accs.length = 0) = false := by
      simp [hlen]
    have hreg : (register (Db.mk accs rts naid nrid) env params).db =
        Db.mk (accs ++ [registerRow env params false naid]) rts (naid + 1) nrid := by
      simp [register, hf, hdec, hlen]
    have hpfind : (accs ++ [registerRow env params false naid]).find?
        (fun x => x.email = params.email) =
        some (registerRow env params false naid) := by
      rw [List.find?_append, hf]
      simp [registerRow]
    refine ⟨registerRow env params false naid, ?_, rfl, rfl, rfl, ?_, ?_⟩
    · rw [hreg]
    · rw [hreg]
      simp only [authenticate]
      rw [hpfind]
      simp [registerRow]
    · intro hv
      simp only at hv
      have hvfind : (accs ++ [registerRow env params false naid]).find?
          (fun x => x.verificationToken = some env.freshToken) =
          some (registerRow env params false naid) := by
        rw [List.find?_append, hv]
        simp [registerRow]
      have hafter : (verifyEmail (register (Db.mk accs rts naid nrid) env params).db
          env env.freshToken).db =
          Db.mk ((accs ++ [registerRow env params false naid]).map
            (fun x => if x.id = naid then verifyApply env x else x))
            rts (naid + 1) nrid := by
        rw [hreg]
        simp only [verifyEmail]
        rw [hvfind]
        simp [updateAccountById, registerRow]
      have hemail : ∀ x : Account,
          ((fun x => if x.id = naid then verifyApply env x else x) x).email =
            x.email := by
        intro x
        by_cases hx : x.id = naid <;> simp [hx, verifyApply]
      have hfound : ((accs ++ [registerRow env params false naid]).map
          (fun x => if x.id = naid then verifyApply env x else x)).find?
            (fun x => x.email = params.email) =
          some (verifyApply env (registerRow env params false naid)) := by
        rw [List.find?_map]
        have hp : ((fun x : Account => decide (x.email = params.email)) ∘
            (fun x => if x.id = naid then verifyApply env x else x)) =
            (fun x : Account => decide (x.email = params.email)) := by
          funext x
          simp [Function.comp, hemail x]
        rw [hp, hpfind]
        simp [registerRow, verifyApply]
      rw [hafter]
      simp only [authenticate]
      rw [hfound]
      simp [verifyApply, registerRow, isOkB, hcmp]


/-- Concrete instantiation of C4: from an empty store the first registrant
comes out an auto-verified Admin who can immediately authenticate. -/
theorem register_first_admin_rest_user_witness :
    ∃ a, (register (Db.mk [] [] 1 1) envT
        { title := "Mr", firstName := "Alex", lastName := "Getz"
        , email := "a@x.com", password := "pw", acceptTerms := some true }).db.accounts
        = [a] ∧
      a.role = .Admin ∧ a.isVerified = true ∧ a.email = "a@x.com" ∧
      isOkB (authenticate (register (Db.mk [] [] 1 1) envT
        { title := "Mr", firstName := "Alex", lastName := "Getz"
        , email := "a@x.com", password := "pw", acceptTerms := some true }).db
        envT "a@x.com" "pw" "ip1").result = true :=
  (register_first_admin_rest_user (Db.mk [] [] 1 1) envT
    { title := "Mr", firstName := "Alex", lastName := "Getz"
    , email := "a@x.com", password := "pw", acceptTerms := some true }
    "ip1" (by decide)).1 rfl

/-- `resetPassword` on a store with no matching, unexpired reset token
fails `Invalid token` (helper). -/
theorem resetPassword_not_found {d : Db} {env : Env} {t p : String}
    (h : d.accounts.find? (resetMatch env t) = none) :
    (resetPassword d env t p).result = .error "Invalid token" := by
  simp [resetPassword, h]

/-- `validateResetToken` on a store with no matching, unexpired reset token
fails `Invalid token` (helper). -/
theorem validateResetToken_not_found {d : Db} {env : Env} {t : String}
    (h : d.accounts.find? (resetMatch env t) = none) :
    (validateResetToken d env t).result = .error "Invalid token" := by
  simp [validateResetToken, h]

/-- An account of `dbOne`\'s shape carrying a pending reset token that
expires at 2000 (the sample clock reads 1000). -/
def acctWithReset : Account :=
  { acctVerified with resetToken := some "rtok", resetTokenExpires := some 2000 }

/-- `acctWithReset`, not yet email-verified. -/
def acctUnverifiedReset : Account :=
  { acctWithReset with isVerified := false }

/-- One-account store holding `acctWithReset`. -/
def dbReset : Db :=
  { dbOne with accounts := [acctWithReset] }

/-- One-account store holding `acctUnverifiedReset`. -/
def dbUnvReset : Db :=
  { dbOne with accounts := [acctUnverifiedReset] }

/-- C5: `validateResetToken` succeeds iff a non-null, non-expired match
exists and never mutates; a successful `resetPassword` rewrites the hash,
clears `resetToken`/`resetTokenExpires` and stamps `passwordReset`, after
which (tokens being held by at most one account) a second `resetPassword`
or `validateResetToken` with the same token fails `Invalid token`. -/
theorem resetToken_single_use (db : Db) (env env2 : Env)
    (token pw pw2 : String) :
    ((validateResetToken db env token).result = .ok () ↔
      ∃ a, db.accounts.find? (resetMatch env token) = some a) ∧
    (validateResetToken db env token).db = db ∧
    (validateResetToken db env token).emails = [] ∧
    (∀ a, db.accounts.find? (resetMatch env token) = some a →
      (resetPassword db env token pw).result = .ok () ∧
      (resetApply env pw a).passwordHash = env.bcryptHash pw ∧
      (resetApply env pw a).resetToken = none ∧
      (resetApply env pw a).resetTokenExpires = none ∧
      (resetApply env pw a).passwordReset = some env.now ∧
      ((∀ x ∈ db.accounts, x.resetToken = some token → x.id = a.id) →
        (resetPassword (resetPassword db env token pw).db env2 token pw2).result =
          .error "Invalid token" ∧
        (validateResetToken (resetPassword db env token pw).db env2 token).result =
          .error "Invalid token")) := by
  refine ⟨?_, ?_, ?_, ?_⟩
  · cases h : db.accounts.find? (resetMatch env token) with
    | none => simp [validateResetToken, h]
    | some a => simp [validateResetToken, h]
  · cases h : db.accounts.find? (resetMatch env token) with
    | none => simp [validateResetToken, h]
    | some a => simp [validateResetToken, h]
  · cases h : db.accounts.find? (resetMatch env token) with
    | none => simp [validateResetToken, h]
    | some a => simp [validateResetToken, h]
  · intro a hfind
    have hdb : (resetPassword db env token pw).db.accounts =
        db.accounts.map (fun x => if x.id = a.id then resetApply env pw x else x) := by
      simp [resetPassword, hfind, updateAccountById]
    refine ⟨by simp [resetPassword, hfind], rfl, rfl, rfl, rfl, ?_⟩
    intro huniq
    have hnone : (resetPassword db env token pw).db.accounts.find?
        (resetMatch env2 token) = none := by
      rw [hdb, List.find?_eq_none]
      intro y hy
      rw [List.mem_map] at hy
      obtain ⟨x, hx, rfl⟩ := hy
      by_cases hxid : x.id = a.id
      · simp [hxid, resetApply, resetMatch]
      · simp only [hxid, if_false]
        simp only [resetMatch, Bool.and_eq_true, decide_eq_true_eq, not_and]
        intro hrt
        exact absurd (huniq x hx hrt) hxid
    exact ⟨resetPassword_not_found hnone, validateResetToken_not_found hnone⟩

/-- Concrete instantiation of C5: a pending reset token resets once, and the
second reset with the same token fails. -/
theorem resetToken_single_use_witness :
    (resetPassword dbReset envT "rtok" "npw").result = .ok () ∧
    (resetPassword (resetPassword dbReset envT "rtok" "npw").db
        envT "rtok" "npw2").result = .error "Invalid token" := by
  have h := (resetToken_single_use dbReset envT envT "rtok" "npw" "npw2").2.2.2
      acctWithReset (by decide)
  exact ⟨h.1, (h.2.2.2.2.2 (by decide)).1⟩

/-- C6 as stated fails on the code: `resetPassword` also flips `isVerified`
to true, so an unverified account with a pending reset token comes out of a
successful reset verified. -/
theorem resetPassword_flips_isVerified :
    (resetPassword dbUnvReset envT "rtok" "npw").result = .ok () ∧
    acctUnverifiedReset.isVerified = false ∧
    (resetPassword dbUnvReset envT "rtok" "npw").db.accounts.map
      Account.isVerified = [true] := by
  exact ⟨rfl, rfl, by decide⟩

/-- C6 (amended): on a successful `resetPassword` the only account fields
that change are `passwordHash`, `resetToken`, `resetTokenExpires`,
`passwordReset`, the `updated` timestamp, and `isVerified` (which is set to
true); every other field — in particular `isActive`, `role`, and `email` —
is unchanged, and accounts with a different id are untouched entirely. -/
theorem resetPassword_frame (db : Db) (env : Env) (token pw : String) :
    ∀ a, db.accounts.find? (resetMatch env token) = some a →
      (resetPassword db env token pw).result = .ok () ∧
      (resetPassword db env token pw).db.accounts =
        db.accounts.map
          (fun x => if x.id = a.id then resetApply env pw x else x) ∧
      (resetPassword db env token pw).db.refreshTokens = db.refreshTokens ∧
      (∀ x : Account,
        (resetApply env pw x).id = x.id ∧
        (resetApply env pw x).email = x.email ∧
        (resetApply env pw x).role = x.role ∧
        (resetApply env pw x).isActive = x.isActive ∧
        (resetApply env pw x).title = x.title ∧
        (resetApply env pw x).firstName = x.firstName ∧
        (resetApply env pw x).lastName = x.lastName ∧
        (resetApply env pw x).acceptTerms = x.acceptTerms ∧
        (resetApply env pw x).verificationToken = x.verificationToken ∧
        (resetApply env pw x).verified = x.verified ∧
        (resetApply env pw x).created = x.created ∧
        (resetApply env pw x).isVerified = true ∧
        (resetApply env pw x).passwordHash = env.bcryptHash pw ∧
        (resetApply env pw x).resetToken = none ∧
        (resetApply env pw x).resetTokenExpires = none ∧
        (resetApply env pw x).passwordReset = some env.now ∧
        (resetApply env pw x).updated = env.now) := by
  intro a hfind
  refine ⟨by simp [resetPassword, hfind], ?_, ?_, ?_⟩
  · simp [resetPassword, hfind, updateAccountById]
  · simp [resetPassword, hfind, updateAccountById]
  · intro x
    exact ⟨rfl, rfl, rfl, rfl, rfl, rfl, rfl, rfl, rfl, rfl, rfl, rfl, rfl,
      rfl, rfl, rfl, rfl⟩

/-- Concrete instantiation of the amended C6: the reset leaves the role of
the matched account intact. -/
theorem resetPassword_frame_witness :
    (resetPassword dbReset envT "rtok" "npw").result = .ok () ∧
    (resetApply envT "npw" acctWithReset).role = acctWithReset.role := by
  have h := resetPassword_frame dbReset envT "rtok" "npw" acctWithReset (by decide)
  exact ⟨h.1, (h.2.2.2 acctWithReset).2.2.1⟩

/-- C7: `forgotPassword` never surfaces an error; for an unknown email it
returns silently with no state change and no email, and the controller
response body is the empty object either way; for a known email it stamps a
fresh reset token expiring 24 hours from now and dispatches the reset
email. -/
theorem forgotPassword_enumeration_safe (db : Db) (env : Env) (email : String) :
    (forgotPassword db env email).result = .ok () ∧
    forgotPasswordResponse db env email = ([] : Payload) ∧
    (∀ db2 env2 email2, forgotPasswordResponse db env email =
      forgotPasswordResponse db2 env2 email2) ∧
    (db.accounts.find? (fun x => x.email = email) = none →
      (forgotPassword db env email).db = db ∧
      (forgotPassword db env email).emails = []) ∧
    (∀ a, db.accounts.find? (fun x => x.email = email) = some a →
      (forgotPassword db env email).db.accounts =
        db.accounts.map
          (fun x => if x.id = a.id then forgotApply env x else x) ∧
      (∀ x : Account,
        (forgotApply env x).resetToken = some env.freshToken ∧
        (forgotApply env x).resetTokenExpires =
          some (env.now + 24 * 60 * 60 * 1000)) ∧
      (forgotPassword db env email).emails = [passwordResetEmail a]) := by
  refine ⟨?_, ?_, ?_, ?_, ?_⟩
  · cases h : db.accounts.find? (fun x => x.email = email) with
    | none => simp [forgotPassword, h]
    | some a => simp [forgotPassword, h]
  · cases h : (forgotPassword db env email).result with
    | ok v => simp [forgotPasswordResponse, h]
    | error e => simp [forgotPasswordResponse, h]
  · intro db2 env2 email2
    cases h : (forgotPassword db env email).result with
    | ok v =>
      cases h2 : (forgotPassword db2 env2 email2).result with
      | ok v2 => simp [forgotPasswordResponse, h, h2]
      | error e2 => simp [forgotPasswordResponse, h, h2]
    | error e =>
      cases h2 : (forgotPassword db2 env2 email2).result with
      | ok v2 => simp [forgotPasswordResponse, h, h2]
      | error e2 => simp [forgotPasswordResponse, h, h2]
  · intro h
    exact ⟨by simp [forgotPassword, h], by simp [forgotPassword, h]⟩
  · intro a h
    refine ⟨by simp [forgotPassword, h, updateAccountById], ?_,
      by simp [forgotPassword, h]⟩
    intro x
    exact ⟨rfl, rfl⟩

/-- Concrete instantiation of C7: on `dbOne` an unknown email leaves the
store untouched with no email sent, and the response body matches the
known-email response body. -/
theorem forgotPassword_enumeration_safe_witness :
    (forgotPassword dbOne envT "nobody@x.com").db = dbOne ∧
    (forgotPassword dbOne envT "nobody@x.com").emails = [] ∧
    forgotPasswordResponse dbOne envT "nobody@x.com" =
      forgotPasswordResponse dbOne envT "a@x.com" := by
  have h := forgotPassword_enumeration_safe dbOne envT "nobody@x.com"
  have h4 := h.2.2.2.1 (by decide)
  exact ⟨h4.1, h4.2, h.2.2.1 dbOne envT "a@x.com"⟩

/-- C8: for a protected route declaring a non-empty required role set, the
Access Guard re-fetches the account by the decoded id and answers 401 when
the account no longer exists, 403 (the handler is never reached) when the
re-fetched role is not in the set, and otherwise proceeds with the
principal id and role (whose token-ownership capability is
`ownsToken db id`); in particular a User-role account on an Admin-only
route gets 403 while an Admin-role account proceeds. -/
theorem authorize_role_enforcement (roles : List Role) (id : Nat) (db : Db)
    (hroles : roles ≠ []) (hid : id ≠ 0) :
    (db.accounts.find? (fun a => a.id = id) = none →
      authorize roles (some id) db =
        .unauthorized "Unauthorized - Account not found") ∧
    (∀ a, db.accounts.find? (fun a2 => a2.id = id) = some a →
      a.role ∉ roles →
      authorize roles (some id) db =
        .forbidden "Forbidden - Insufficient permissions") ∧
    (∀ a, db.accounts.find? (fun a2 => a2.id = id) = some a →
      a.role ∈ roles →
      authorize roles (some id) db = .proceed a.id a.role) := by
  have hlen : roles.length ≠ 0 := by
    simpa [List.length_eq_zero] using hroles
  refine ⟨?_, ?_, ?_⟩
  · intro h
    simp [authorize, hid, h]
  · intro a h hrole
    simp [authorize, hid, h, hlen, hrole]
  · intro a h hrole
    simp [authorize, hid, h, hlen, hrole]

/-- Concrete instantiation of C8: on an Admin-only route the sample User
account is rejected 403 and the sample Admin account proceeds. -/
theorem authorize_role_enforcement_witness :
    authorize [Role.Admin] (some 1)
        { dbOne with accounts := [{ acctVerified with role := .User }] } =
      .forbidden "Forbidden - Insufficient permissions" ∧
    authorize [Role.Admin] (some 1) dbOne = .proceed 1 .Admin := by
  constructor
  · exact (authorize_role_enforcement [Role.Admin] 1
      { dbOne with accounts := [{ acctVerified with role := .User }] }
      (by decide) (by decide)).2.1
      { acctVerified with role := .User } (by decide) (by decide)
  · exact (authorize_role_enforcement [Role.Admin] 1 dbOne
      (by decide) (by decide)).2.2 acctVerified (by decide) (by decide)

/-- A refresh-token row whose `expires` timestamp (5) is already in the
past at the sample check time (10), while its stored flags still read
active and not-expired. -/
def rtStale : RefreshToken :=
  { rtRace with expires := some 5 }

/-- Store holding the stale-but-flagged-usable row of `rtStale`. -/
def dbStale : Db :=
  { accounts := [acctVerified]
  , refreshTokens := [rtStale]
  , nextAccountId := 2
  , nextRefreshTokenId := 2 }

/-- C9 (failing run): the code consults only the stored `isExpired` flag —
which creation sets to false and nothing ever updates — so a token whose
`expires` timestamp has already passed is still accepted by the refresh
lookup and by the `ownsToken` capability, while the claimed invariant
(active AND `expires` in the future AND `revoked` null) rejects it. -/
theorem expired_token_still_usable :
    rtStale.expires = some 5 ∧
    specUsable 10 "t0" rtStale = false ∧
    usableForRefresh "t0" rtStale = true ∧
    ownsToken dbStale 1 "t0" = true ∧
    isOkB (refreshTokenOp dbStale { envT with now := 10 } "t0" "ip1").result =
      true := by
  exact ⟨rfl, by decide, by decide, by decide, rfl⟩

/-- The account fields that must never appear in a response payload. -/
def sensitiveKeys : List String :=
  ["passwordHash", "verificationToken", "resetToken", "resetTokenExpires",
   "refreshTokens"]

/-- No sensitive key occurs among the keys of the `basicDetails` projection
(helper). -/
theorem sensitive_not_in_basic (a : Account) :
    ∀ k ∈ sensitiveKeys, k ∉ (basicDetails a).keys := by
  intro k hk
  have hkeys : (basicDetails a).keys =
      ["id", "title", "firstName", "lastName", "email", "role",
       "dateCreated", "isVerified", "isActive"] := rfl
  rw [hkeys]
  simp only [sensitiveKeys, List.mem_cons, List.not_mem_nil, or_false] at hk
  rcases hk with rfl | rfl | rfl | rfl | rfl <;> decide

/-- No sensitive key occurs among the keys of the token-bearing success
payload of `authenticate`/`refreshToken` (helper). -/
theorem sensitive_not_in_token_payload (a : Account) (jwt tok : String) :
    ∀ k ∈ sensitiveKeys,
      k ∉ (basicDetails a ++
        [("jwtToken", JsonVal.str jwt), ("refreshToken", JsonVal.str tok)]).keys := by
  intro k hk
  have hkeys : (basicDetails a ++
      [("jwtToken", JsonVal.str jwt), ("refreshToken", JsonVal.str tok)]).keys =
      ["id", "title", "firstName", "lastName", "email", "role",
       "dateCreated", "isVerified", "isActive", "jwtToken", "refreshToken"] := rfl
  rw [hkeys]
  simp only [sensitiveKeys, List.mem_cons, List.not_mem_nil, or_false] at hk
  rcases hk with rfl | rfl | rfl | rfl | rfl <;> decide

/-- C10: every operation that returns account data — `authenticate` and
`refresh` success payloads, `getAll`, `getById`, `create`, `update` —
returns only the `basicDetails` projection (plus the two session tokens
where applicable); `passwordHash`, `verificationToken`, `resetToken`,
`resetTokenExpires` and the refresh-token list never appear among the
payload keys. -/
theorem payloads_exclude_secrets :
    (∀ a : Account, ∀ k ∈ sensitiveKeys, k ∉ (basicDetails a).keys) ∧
    (∀ (db : Db) (env : Env) (e p ip : String) (pl : Payload),
      (authenticate db env e p ip).result = .ok pl →
      ∀ k ∈ sensitiveKeys, k ∉ pl.keys) ∧
    (∀ (db : Db) (env : Env) (t ip : String) (pl : Payload),
      (refreshTokenOp db env t ip).result = .ok pl →
      ∀ k ∈ sensitiveKeys, k ∉ pl.keys) ∧
    (∀ (db : Db) (pl : Payload), pl ∈ getAll db →
      ∀ k ∈ sensitiveKeys, k ∉ pl.keys) ∧
    (∀ (db : Db) (id : Nat) (pl : Payload), getById db id = .ok pl →
      ∀ k ∈ sensitiveKeys, k ∉ pl.keys) ∧
    (∀ (db : Db) (env : Env) (prm : RegisterParams) (pl : Payload),
      (create db env prm).result = .ok pl →
      ∀ k ∈ sensitiveKeys, k ∉ pl.keys) ∧
    (∀ (db : Db) (env : Env) (id : Nat) (prm : UpdateParams) (pl : Payload),
      (update db env id prm).result = .ok pl →
      ∀ k ∈ sensitiveKeys, k ∉ pl.keys) := by
  refine ⟨sensitive_not_in_basic, ?_, ?_, ?_, ?_, ?_, ?_⟩
  · intro db env e p ip pl h
    cases hfind : db.accounts.find? (fun a => a.email = e) with
    | none => simp [authenticate, hfind] at h
    | some a =>
      by_cases hact : a.isActive
      · by_cases hver : a.isVerified
        · by_cases hcmp : env.bcryptCompare p a.passwordHash
          · simp [authenticate, hfind, hact, hver, hcmp] at h
            subst h
            exact sensitive_not_in_token_payload a _ _
          · simp [authenticate, hfind, hact, hver, hcmp] at h
        · simp [authenticate, hfind, hact, hver] at h
      · simp [authenticate, hfind, hact] at h
  · intro db env t ip pl h
    cases hfind : refreshFind db t with
    | none => simp [refreshTokenOp, hfind] at h
    | some rt =>
      cases hacc : db.accounts.find? (fun a => a.id = rt.accountId) with
      | none => simp [refreshTokenOp, hfind, hacc] at h
      | some a =>
        simp [refreshTokenOp, hfind, hacc] at h
        subst h
        exact sensitive_not_in_token_payload a _ _
  · intro db pl h
    rw [getAll, List.mem_map] at h
    obtain ⟨a, _, rfl⟩ := h
    exact sensitive_not_in_basic a
  · intro db id pl h
    cases hfind : db.accounts.find? (fun a => a.id = id) with
    | none => simp [getById, hfind] at h
    | some a =>
      simp [getById, hfind] at h
      subst h
      exact sensitive_not_in_basic a
  · intro db env prm pl h
    cases hfind : db.accounts.find? (fun a => a.email = prm.email) with
    | none =>
      simp [create, hfind] at h
      subst h
      exact sensitive_not_in_basic _
    | some a => simp [create, hfind] at h
  · intro db env id prm pl h
    cases hfind : db.accounts.find? (fun a => a.id = id) with
    | none => simp [update, hfind] at h
    | some a =>
      by_cases hc : (match prm.email with
        | some e => e != a.email &&
            (db.accounts.find? (fun a2 => a2.email = e)).isSome
        | none => false) = true
      · simp [update, hfind, hc] at h
      · simp [update, hfind, hc] at h
        subst h
        exact sensitive_not_in_basic _

/-- Concrete instantiation of C10: the stored password hash key never
appears in the sample account's projection. -/
theorem payloads_exclude_secrets_witness :
    "passwordHash" ∉ (basicDetails acctVerified).keys :=
  payloads_exclude_secrets.1 acctVerified "passwordHash" (by decide)

end UserMgmt
